import Mathlib

/-!
Verification development for the Nano Banana MCP server
(src/nano_banana_server.py). The Python code is shallowly embedded:
bytes become lists of naturals below 256, the remote generation call
becomes an oracle parameter, mutation of the cached client becomes
explicit state passing, and raised exceptions become Except values
that the embedded functions catch exactly where the Python code does.
-/

namespace NanoBanana

/-- Byte sequences are modeled as lists of naturals below 256. -/
abbrev Bytes := List Nat

/-- Model of the inline binary payload of a response part. The flag
records whether the object has a data attribute at all, matching the
hasattr probe in the source. -/
structure InlineData where
  hasData : Bool
  data : Bytes
deriving DecidableEq

/-- Model of one content part of a remote response candidate. The flag
records whether the part has an inline data attribute, matching the
hasattr probe in the source. -/
structure Part where
  hasInlineData : Bool
  inline_data : Option InlineData
deriving DecidableEq

/-- Model of the content of a response candidate. -/
structure Content where
  parts : List Part
deriving DecidableEq

/-- Model of one candidate of a remote response. -/
structure Candidate where
  content : Content
deriving DecidableEq

/-- Model of a structured remote response. -/
structure RemoteResponse where
  candidates : List Candidate
deriving DecidableEq

/-- Embeds the ImageGenerationRequest dataclass. -/
structure ImageGenerationRequest where
  prompt : String
  input_image_data : Option Bytes := none
  input_image_mime_type : Option String := none
deriving DecidableEq

/-- Embeds the ImageGenerationResponse dataclass, defaults included. -/
structure ImageGenerationResponse where
  success : Bool
  generated_image_data : Option Bytes := none
  error_message : Option String := none
  model_used : String := "gemini-2.5-flash-image-preview"
deriving DecidableEq

/-- Model of the AI Studio client handle: it is bound to the api key it
was constructed with. -/
structure Client where
  api_key : String
deriving DecidableEq

/-- The mutable attributes of a NanoBananaMCPServer instance. -/
structure ServerState where
  api_key : String
  model_name : String
  client : Option Client
deriving DecidableEq

/-- The ValueError message raised by the constructor. -/
def apiKeyErrorMsg : String :=
  "Google AI Studio API key is required. Set GOOGLE_AI_STUDIO_API_KEY environment variable."

/-- The fixed model identifier, also the dataclass default of model_used. -/
def defaultModel : String := "gemini-2.5-flash-image-preview"

/-- Embeds NanoBananaMCPServer.__init__. The env argument models the
value of the GOOGLE_AI_STUDIO_API_KEY environment variable (none when
unset). Python truthiness of strings makes the empty string fall
through the or and makes the final check reject it. -/
def initServer (api_key env : Option String) : Except String ServerState :=
  let key : Option String :=
    match api_key with
    | some s => if s = "" then env else some s
    | none => env
  match key with
  | none => .error apiKeyErrorMsg
  | some s =>
      if s = "" then .error apiKeyErrorMsg
      else .ok { api_key := s, model_name := defaultModel, client := none }

/-- Embeds NanoBananaMCPServer._get_client: create the client on first
use, cache it on the instance, return the cached one afterwards. -/
def getClient (s : ServerState) : ServerState × Client :=
  match s.client with
  | some c => (s, c)
  | none =>
      let c : Client := { api_key := s.api_key }
      ({ s with client := some c }, c)

/-- One element of the contents list handed to the remote call: the
prompt string or an image part built from bytes and a mime type. -/
inductive ContentItem where
  | text (t : String)
  | imagePart (data : Bytes) (mime_type : String)
deriving DecidableEq

/-- Embeds the content assembly in generate_image: the prompt first,
then an image part when input_image_data is truthy (present and
non-empty), with the mime type defaulting to image/png when the given
one is falsy. -/
def buildContents (req : ImageGenerationRequest) : List ContentItem :=
  let contents := [ContentItem.text req.prompt]
  match req.input_image_data with
  | some d =>
      if d ≠ [] then
        contents ++ [ContentItem.imagePart d
          (match req.input_image_mime_type with
           | some m => if m = "" then "image/png" else m
           | none => "image/png")]
      else contents
  | none => contents

/-- The remote generation call, abstracted as an oracle from the model
name and the assembled contents to either a raised exception message or
a structured response. -/
abbrev RemoteOracle := String → List ContentItem → Except String RemoteResponse

/-- The condition under which the extraction loop in generate_image
accepts a part: it has an inline data attribute that is not None, which
in turn has a data attribute holding truthy (non-empty) bytes. -/
def carriesImage (p : Part) : Bool :=
  p.hasInlineData &&
    match p.inline_data with
    | some idata => idata.hasData && decide (idata.data ≠ [])
    | none => false

/-- Embeds the for loop over the first candidate parts in
generate_image: the first part with truthy inline bytes wins and the
loop breaks. -/
def extractImage : List Part → Option Bytes
  | [] => none
  | p :: rest =>
      if p.hasInlineData then
        match p.inline_data with
        | some idata =>
            if idata.hasData && decide (idata.data ≠ []) then some idata.data
            else extractImage rest
        | none => extractImage rest
      else extractImage rest

/-- The error message built when no part carries image data. -/
def noImageMsg : String := "No image data found in model response"

/-- Embeds the response inspection in generate_image. Indexing
candidates at zero raises IndexError when the list is empty; the raise
is modeled as the error of an Except and is caught by the caller
exactly like the Python try block catches it. -/
def processResponse (model : String) (resp : RemoteResponse) :
    Except String ImageGenerationResponse :=
  match resp.candidates with
  | [] => .error "list index out of range"
  | c :: _ =>
      match extractImage c.content.parts with
      | some d => .ok { success := true, generated_image_data := some d, model_used := model }
      | none => .ok { success := false, error_message := some noImageMsg }

/-- Embeds NanoBananaMCPServer.generate_image: acquire the client,
assemble the contents, issue the remote call, inspect the response;
any exception along the way is caught and turned into a failure
response whose message wraps the exception text. -/
def generateImage (s : ServerState) (req : ImageGenerationRequest)
    (remote : RemoteOracle) : ServerState × ImageGenerationResponse :=
  let p := getClient s
  let s1 := p.1
  let contents := buildContents req
  match remote s1.model_name contents with
  | .error e =>
      (s1, { success := false, error_message := some ("Image generation failed: " ++ e) })
  | .ok resp =>
      match processResponse s1.model_name resp with
      | .ok r => (s1, r)
      | .error e =>
          (s1, { success := false, error_message := some ("Image generation failed: " ++ e) })

/-- The base64 alphabet character for a sextet value. -/
def b64EncChar (n : Nat) : Char :=
  if n < 26 then Char.ofNat (65 + n)
  else if n < 52 then Char.ofNat (97 + (n - 26))
  else if n < 62 then Char.ofNat (48 + (n - 52))
  else if n = 62 then Char.ofNat 43
  else Char.ofNat 47

/-- Standard base64 encoding with padding, modeling base64.b64encode
followed by an ascii decode. -/
def b64Encode : Bytes → List Char
  | [] => []
  | [b1] =>
      [b64EncChar (b1 / 4), b64EncChar (b1 % 4 * 16), Char.ofNat 61, Char.ofNat 61]
  | [b1, b2] =>
      [b64EncChar (b1 / 4), b64EncChar (b1 % 4 * 16 + b2 / 16),
       b64EncChar (b2 % 16 * 4), Char.ofNat 61]
  | b1 :: b2 :: b3 :: rest =>
      b64EncChar (b1 / 4) :: b64EncChar (b1 % 4 * 16 + b2 / 16) ::
      b64EncChar (b2 % 16 * 4 + b3 / 64) :: b64EncChar (b3 % 64) :: b64Encode rest

/-- The sextet value of a base64 alphabet character, none for every
character outside the alphabet. -/
def sextet (c : Char) : Option Nat :=
  let n := c.toNat
  if 65 ≤ n ∧ n ≤ 90 then some (n - 65)
  else if 97 ≤ n ∧ n ≤ 122 then some (n - 97 + 26)
  else if 48 ≤ n ∧ n ≤ 57 then some (n - 48 + 52)
  else if n = 43 then some 62
  else if n = 47 then some 63
  else none

/-- The bytes produced by a group of two, three or four sextets. -/
def quadBytes : List Nat → Bytes
  | [a, b] => [a * 4 + b / 16]
  | [a, b, c] => [a * 4 + b / 16, b % 16 * 16 + c / 4]
  | [a, b, c, d] => [a * 4 + b / 16, b % 16 * 16 + c / 4, c % 4 * 64 + d]
  | _ => []

/-- The binascii error message for input ending with an incomplete
group of data characters: a leftover of one character has its own
message naming the count, any other leftover is incorrect padding. -/
def paddingErrorMsg (n : Nat) : String :=
  if n % 4 = 1 then
    "Invalid base64-encoded string: number of data characters (" ++ toString n ++
      ") cannot be 1 more than a multiple of 4"
  else "Incorrect padding"

/-- Models the loop of binascii a2b_base64 in non-strict mode, with
the pending sextets of the current group and the length of the
current pad run as extra state. Characters outside the alphabet are
discarded and leave the pad run unchanged; a data character resets
the pad run, and emits three bytes when it completes a group of four
sextets; an equals sign is counted only while at least two sextets
are pending, and the scan finishes successfully (emitting the final
bytes of the pending group) once the pending sextets plus the pad
run reach four; a trailing group that was never closed this way is
an error. -/
def b64DecodeLoop : List Char → Bytes → List Nat → Nat → Except String Bytes
  | [], acc, quad, _ =>
      if quad.length = 0 then .ok acc
      else .error (paddingErrorMsg (acc.length / 3 * 4 + quad.length))
  | c :: cs, acc, quad, pads =>
      if c.toNat = 61 then
        if 2 ≤ quad.length then
          if 4 ≤ quad.length + (pads + 1) then .ok (acc ++ quadBytes quad)
          else b64DecodeLoop cs acc quad (pads + 1)
        else b64DecodeLoop cs acc quad pads
      else
        match sextet c with
        | some v =>
            if quad.length = 3 then b64DecodeLoop cs (acc ++ quadBytes (quad ++ [v])) [] 0
            else b64DecodeLoop cs acc (quad ++ [v]) 0
        | none => b64DecodeLoop cs acc quad pads

/-- Models base64.b64decode on a string argument with default
validation: the string is first encoded as ascii, which raises for
any character above 127, and the remaining bytes are scanned by the
binascii loop. -/
def pyB64Decode (s : String) : Except String Bytes :=
  if s.toList.all (fun c => c.toNat < 128) then b64DecodeLoop s.toList [] [] 0
  else .error "string argument should contain only ASCII characters"

/-- The dictionary returned by generate_image_from_base64; a field set
to none models an absent key. -/
structure ResultDict where
  success : Bool
  model_used : Option String := none
  generated_image_b64 : Option String := none
  generated_image_size : Option Nat := none
  error : Option String := none
deriving DecidableEq

/-- The fixed text prepended to a base64 decode failure message. -/
def decodeErrorLead : String := "Failed to decode base64 input image: "

/-- Embeds the decode step at the top of generate_image_from_base64:
a falsy (absent or empty) input skips decoding entirely, otherwise the
base64 decode runs and its exception propagates to the early return. -/
def decodeInputImage (input_image_b64 : Option String) : Except String (Option Bytes) :=
  match input_image_b64 with
  | some b64 =>
      if b64 = "" then .ok none
      else
        match pyB64Decode b64 with
        | .ok d => .ok (some d)
        | .error e => .error e
  | none => .ok none

/-- Embeds NanoBananaMCPServer.generate_image_from_base64: decode the
optional base64 input (returning early with only success and error
keys on failure), delegate to generateImage, then build the result
dictionary, attaching the re-encoded image and its byte length when
the response succeeded with truthy bytes and the error message
otherwise. -/
def generateImageFromBase64 (s : ServerState) (prompt : String)
    (input_image_b64 : Option String) (input_image_mime_type : Option String)
    (remote : RemoteOracle) : ServerState × ResultDict :=
  match decodeInputImage input_image_b64 with
  | .error e =>
      (s, { success := false, error := some (decodeErrorLead ++ e) })
  | .ok input_image_data =>
      let req : ImageGenerationRequest :=
        { prompt := prompt, input_image_data := input_image_data,
          input_image_mime_type := input_image_mime_type }
      let p := generateImage s req remote
      let response := p.2
      let base : ResultDict :=
        { success := response.success, model_used := some response.model_used }
      match response.generated_image_data with
      | some d =>
          if response.success && decide (d ≠ []) then
            (p.1, { base with
                    generated_image_b64 := some (String.mk (b64Encode d)),
                    generated_image_size := some d.length })
          else (p.1, { base with error := response.error_message })
      | none => (p.1, { base with error := response.error_message })

/-- A concrete server state with no client yet, for instantiations. -/
def serverA : ServerState :=
  { api_key := "key", model_name := defaultModel, client := none }

/-- A concrete server state whose client is already constructed. -/
def serverC : ServerState :=
  { api_key := "key", model_name := defaultModel, client := some { api_key := "key" } }

/-- An oracle whose remote call always raises. -/
def remoteBoom : RemoteOracle := fun _ _ => .error "boom"

/-- An oracle returning a well-formed response with zero candidates. -/
def remoteEmptyCandidates : RemoteOracle := fun _ _ => .ok { candidates := [] }

/-- An oracle returning one candidate whose parts carry no image. -/
def remoteNoParts : RemoteOracle :=
  fun _ _ => .ok { candidates := [{ content := { parts := [] } }] }

/-- The decode error message produced for the sample malformed input,
which keeps nine data characters after discarding the others. -/
def badB64Msg : String :=
  "Invalid base64-encoded string: number of data characters (9) cannot be 1 more than a multiple of 4"

/-- A concrete part carrying two bytes of inline image data. -/
def goodPart : Part :=
  { hasInlineData := true, inline_data := some { hasData := true, data := [104, 105] } }

/-- A concrete candidate whose single part is goodPart. -/
def goodCandidate : Candidate := { content := { parts := [goodPart] } }

/-- An oracle returning one candidate with one inline image part of two
bytes. -/
def remoteGood : RemoteOracle :=
  fun _ _ => .ok { candidates := [goodCandidate] }

theorem getClient_fst_api_key (s : ServerState) : (getClient s).1.api_key = s.api_key := by
  unfold getClient
  cases h : s.client <;> simp

theorem getClient_fst_model_name (s : ServerState) : (getClient s).1.model_name = s.model_name := by
  unfold getClient
  cases h : s.client <;> simp

theorem getClient_preserves_client (s : ServerState) (c : Client) (h : s.client = some c) :
    getClient s = (s, c) := by
  unfold getClient
  rw [h]

theorem generateImage_fst (s : ServerState) (req : ImageGenerationRequest)
    (remote : RemoteOracle) : (generateImage s req remote).1 = (getClient s).1 := by
  unfold generateImage
  cases h : remote (getClient s).1.model_name (buildContents req) with
  | error e => simp [h]
  | ok resp =>
      cases h2 : processResponse (getClient s).1.model_name resp <;> simp [h, h2]

theorem generateImageFromBase64_fst_client (s : ServerState) (prompt : String)
    (b64 mime : Option String) (remote : RemoteOracle) (c : Client) (h : s.client = some c) :
    ((generateImageFromBase64 s prompt b64 mime remote).1).client = some c := by
  unfold generateImageFromBase64
  cases hd : decodeInputImage b64 with
  | error e => simpa using h
  | ok data =>
      have hfst := generateImage_fst s
        { prompt := prompt, input_image_data := data, input_image_mime_type := mime } remote
      have hcl : ((generateImage s
          { prompt := prompt, input_image_data := data, input_image_mime_type := mime }
          remote).1).client = some c := by
        rw [hfst, getClient_preserves_client s c h]
        exact h
      cases hgd : (generateImage s
          { prompt := prompt, input_image_data := data, input_image_mime_type := mime }
          remote).2.generated_image_data <;>
        simp [hgd, hcl] <;> split <;> simpa using hcl

/-- C8: the session handle is a lazy singleton: the first call to
getClient constructs a client bound to the stored api key and caches
it, later calls return the cached client unchanged, and neither
generateImage nor generateImageFromBase64 ever replaces a non-null
cached client. -/
theorem client_lazy_singleton :
    (∀ s : ServerState, s.client = none →
        getClient s = ({ s with client := some { api_key := s.api_key } },
          { api_key := s.api_key })) ∧
    (∀ (s : ServerState) (c : Client), s.client = some c → getClient s = (s, c)) ∧
    (∀ (s : ServerState) (req : ImageGenerationRequest) (remote : RemoteOracle) (c : Client),
        s.client = some c → ((generateImage s req remote).1).client = some c) ∧
    (∀ (s : ServerState) (prompt : String) (b64 mime : Option String)
        (remote : RemoteOracle) (c : Client),
        s.client = some c →
        ((generateImageFromBase64 s prompt b64 mime remote).1).client = some c) := by
  refine ⟨?_, ?_, ?_, ?_⟩
  · intro s h
    unfold getClient
    rw [h]
  · exact getClient_preserves_client
  · intro s req remote c h
    rw [generateImage_fst, getClient_preserves_client s c h]
    exact h
  · exact fun s prompt b64 mime remote c h =>
      generateImageFromBase64_fst_client s prompt b64 mime remote c h

theorem client_lazy_singleton_witness :
    getClient serverA = (serverC, { api_key := "key" }) ∧
    getClient serverC = (serverC, { api_key := "key" }) ∧
    ((generateImage serverC { prompt := "p" } remoteBoom).1).client =
      some { api_key := "key" } ∧
    ((generateImageFromBase64 serverC "p" none none remoteBoom).1).client =
      some { api_key := "key" } :=
  ⟨client_lazy_singleton.1 serverA rfl,
   client_lazy_singleton.2.1 serverC { api_key := "key" } rfl,
   client_lazy_singleton.2.2.1 serverC { prompt := "p" } remoteBoom { api_key := "key" } rfl,
   client_lazy_singleton.2.2.2 serverC "p" none none remoteBoom { api_key := "key" } rfl⟩

/-- C9: when the credential is absent everywhere (parameter and
environment both missing or empty, hence falsy), construction fails
with the configuration error; and every successfully constructed
server state carries a non-empty credential and starts with no
client, so no per-call credential failure exists. -/
theorem missing_credential_fatal :
    (∀ api_key env : Option String, (api_key = none ∨ api_key = some "") →
        (env = none ∨ env = some "") →
        initServer api_key env = .error apiKeyErrorMsg) ∧
    (∀ (api_key env : Option String) (s : ServerState),
        initServer api_key env = .ok s → s.api_key ≠ "" ∧ s.client = none) := by
  constructor
  · intro api_key env h1 h2
    rcases h1 with h1 | h1 <;> rcases h2 with h2 | h2 <;> subst h1 <;> subst h2 <;> rfl
  · intro api_key env s h
    rcases api_key with _ | s0
    · rcases env with _ | e0
      · exact absurd h (by simp [initServer])
      · by_cases he : e0 = ""
        · subst he
          exact absurd h (by simp [initServer])
        · have h2 : initServer none (some e0) =
              .ok { api_key := e0, model_name := defaultModel, client := none } := by
            simp [initServer, he]
          rw [h2] at h
          cases h
          exact ⟨he, rfl⟩
    · by_cases h0 : s0 = ""
      · subst h0
        rcases env with _ | e0
        · exact absurd h (by simp [initServer])
        · by_cases he : e0 = ""
          · subst he
            exact absurd h (by simp [initServer])
          · have h2 : initServer (some "") (some e0) =
                .ok { api_key := e0, model_name := defaultModel, client := none } := by
              simp [initServer, he]
            rw [h2] at h
            cases h
            exact ⟨he, rfl⟩
      · have h2 : initServer (some s0) env =
            .ok { api_key := s0, model_name := defaultModel, client := none } := by
          simp [initServer, h0]
        rw [h2] at h
        cases h
        exact ⟨h0, rfl⟩

theorem missing_credential_fatal_witness :
    initServer none none = .error apiKeyErrorMsg ∧
    initServer (some "") (some "") = .error apiKeyErrorMsg ∧
    (serverA.api_key ≠ "" ∧ serverA.client = none) :=
  ⟨missing_credential_fatal.1 none none (Or.inl rfl) (Or.inl rfl),
   missing_credential_fatal.1 (some "") (some "") (Or.inr rfl) (Or.inr rfl),
   missing_credential_fatal.2 (some "key") none serverA rfl⟩

/-- C10: the empty string as base64 input is falsy, so the call
behaves exactly as if no image had been given: no decoding happens,
the decode step yields no image data, and the assembled contents are
the prompt alone. -/
theorem empty_b64_treated_as_absent (s : ServerState) (prompt : String)
    (mime : Option String) (remote : RemoteOracle) :
    generateImageFromBase64 s prompt (some "") mime remote =
      generateImageFromBase64 s prompt none mime remote ∧
    decodeInputImage (some "") = .ok none ∧
    buildContents { prompt := prompt, input_image_data := none, input_image_mime_type := mime } =
      [ContentItem.text prompt] :=
  ⟨rfl, rfl, rfl⟩

theorem extractImage_cons (hasID : Bool) (idata : Option InlineData) (rest : List Part) :
    extractImage ({ hasInlineData := hasID, inline_data := idata } :: rest) =
      if carriesImage { hasInlineData := hasID, inline_data := idata } = true then
        some ((idata.getD { hasData := true, data := [] }).data)
      else extractImage rest := by
  cases hasID with
  | false => simp [extractImage, carriesImage]
  | true =>
      cases idata with
      | none => simp [extractImage, carriesImage]
      | some id0 =>
          by_cases h2 : (id0.hasData && decide (id0.data ≠ [])) = true
          · simp [extractImage, carriesImage, h2]
          · simp [extractImage, carriesImage, h2]

theorem extractImage_eq_find (ps : List Part) :
    extractImage ps = (ps.find? carriesImage).map
      (fun pt => (pt.inline_data.getD { hasData := true, data := [] }).data) := by
  induction ps with
  | nil => rfl
  | cons p rest ih =>
      obtain ⟨hasID, idata⟩ := p
      rw [extractImage_cons]
      by_cases hc : carriesImage { hasInlineData := hasID, inline_data := idata } = true
      · rw [if_pos hc, List.find?_cons_of_pos _ hc]
        rfl
      · rw [if_neg hc, List.find?_cons_of_neg _ hc, ih]

theorem extractImage_ne_nil (ps : List Part) (d : Bytes) (h : extractImage ps = some d) :
    d ≠ [] := by
  induction ps with
  | nil => exact absurd h (by simp [extractImage])
  | cons p rest ih =>
      obtain ⟨hasID, idata⟩ := p
      rw [extractImage_cons] at h
      by_cases hc : carriesImage { hasInlineData := hasID, inline_data := idata } = true
      · rw [if_pos hc] at h
        cases hid : idata with
        | none => rw [hid] at hc; exact absurd hc (by simp [carriesImage])
        | some id0 =>
            rw [hid] at h
            simp only [Option.getD_some, Option.some.injEq] at h
            subst h
            rw [hid] at hc
            simp only [carriesImage, Bool.and_eq_true, decide_eq_true_eq] at hc
            exact hc.2.2
      · rw [if_neg hc] at h
        exact ih h

theorem genFailMsg_ne_empty (e : String) : ("Image generation failed: " ++ e) ≠ "" := by
  intro h
  have h1 : ("Image generation failed: " ++ e).length = 0 := by rw [h]; rfl
  rw [String.length_append] at h1
  have h2 : ("Image generation failed: " : String).length = 25 := by decide
  omega

theorem generateImage_eq (s : ServerState) (req : ImageGenerationRequest)
    (remote : RemoteOracle) :
    generateImage s req remote =
      ((getClient s).1,
        match remote (getClient s).1.model_name (buildContents req) with
        | .error e =>
            { success := false, error_message := some ("Image generation failed: " ++ e) }
        | .ok resp =>
            match processResponse (getClient s).1.model_name resp with
            | .ok r => r
            | .error e =>
                { success := false,
                  error_message := some ("Image generation failed: " ++ e) }) := by
  simp only [generateImage]
  cases remote (getClient s).1.model_name (buildContents req) with
  | error e => rfl
  | ok resp =>
      cases hpr : processResponse (getClient s).1.model_name resp with
      | ok r => simp [hpr]
      | error e => simp [hpr]

theorem generateImage_shape (s : ServerState) (req : ImageGenerationRequest)
    (remote : RemoteOracle) :
    ((generateImage s req remote).2.success = true ∧
      (∃ d, (generateImage s req remote).2.generated_image_data = some d ∧ d ≠ []) ∧
      (generateImage s req remote).2.error_message = none) ∨
    ((generateImage s req remote).2.success = false ∧
      (generateImage s req remote).2.generated_image_data = none ∧
      ∃ m, (generateImage s req remote).2.error_message = some m ∧ m ≠ "") := by
  rw [generateImage_eq]
  cases hrem : remote (getClient s).1.model_name (buildContents req) with
  | error e =>
      exact Or.inr ⟨rfl, rfl, "Image generation failed: " ++ e, rfl, genFailMsg_ne_empty e⟩
  | ok resp =>
      cases hcand : resp.candidates with
      | nil =>
          right
          refine ⟨?_, ?_, "Image generation failed: " ++ "list index out of range", ?_,
            genFailMsg_ne_empty _⟩ <;> simp [processResponse, hcand]
      | cons c rest =>
          cases hex : extractImage c.content.parts with
          | some d =>
              left
              refine ⟨?_, ⟨d, ?_, extractImage_ne_nil _ _ hex⟩, ?_⟩ <;>
                simp [processResponse, hcand, hex]
          | none =>
              right
              refine ⟨?_, ?_, noImageMsg, ?_, by decide⟩ <;>
                simp [processResponse, hcand, hex]

/-- C1: once a server state exists, generateImage is total and
normalizes every failure: a raised remote exception is caught and
mapped to a failed response wrapping the exception text, and every
failed response carries a non-empty error message, so no exception
passes the boundary. -/
theorem generate_never_raises (s : ServerState) (req : ImageGenerationRequest)
    (remote : RemoteOracle) :
    (∀ e, remote (getClient s).1.model_name (buildContents req) = .error e →
        (generateImage s req remote).2 =
          { success := false, error_message := some ("Image generation failed: " ++ e) }) ∧
    ((generateImage s req remote).2.success = false →
        ∃ m, (generateImage s req remote).2.error_message = some m ∧ m ≠ "") := by
  constructor
  · intro e he
    rw [generateImage_eq, he]
  · intro hfail
    rcases generateImage_shape s req remote with h | h
    · exact absurd (h.1.symm.trans hfail) (by simp)
    · exact h.2.2

theorem generate_never_raises_witness :
    (generateImage serverA { prompt := "p" } remoteBoom).2 =
      { success := false, error_message := some ("Image generation failed: " ++ "boom") } :=
  (generate_never_raises serverA { prompt := "p" } remoteBoom).1 "boom" rfl

/-- C2 counterexample: a remote response with zero candidates does not
produce the no-image-data message; indexing the empty candidate list
raises, and the generic handler produces the wrapped index error text
instead. -/
theorem no_candidates_message_counterexample :
    (generateImage serverA { prompt := "A ceramic bowl" } remoteEmptyCandidates).2.success
        = false ∧
    (generateImage serverA { prompt := "A ceramic bowl" } remoteEmptyCandidates).2.error_message
        = some "Image generation failed: list index out of range" ∧
    (generateImage serverA { prompt := "A ceramic bowl" } remoteEmptyCandidates).2.error_message
        ≠ some noImageMsg :=
  ⟨rfl, rfl, by decide⟩

/-- C2 (amended): a response with zero candidates yields a failed
result whose message wraps the index error raised by the candidate
access, while a response whose first candidate has no part carrying
inline image data yields a failed result with the no-image-data
message; in both cases the failure is a returned value, never a
raised fault. -/
theorem no_image_data_normalized (s : ServerState) (req : ImageGenerationRequest)
    (remote : RemoteOracle) :
    (∀ resp : RemoteResponse,
        remote (getClient s).1.model_name (buildContents req) = .ok resp →
        resp.candidates = [] →
        (generateImage s req remote).2 =
          { success := false,
            error_message :=
              some ("Image generation failed: " ++ "list index out of range") }) ∧
    (∀ (resp : RemoteResponse) (c : Candidate) (rest : List Candidate),
        remote (getClient s).1.model_name (buildContents req) = .ok resp →
        resp.candidates = c :: rest →
        (∀ pt ∈ c.content.parts, carriesImage pt = false) →
        (generateImage s req remote).2 =
          { success := false, error_message := some noImageMsg }) := by
  constructor
  · intro resp hrem hcand
    rw [generateImage_eq, hrem]
    simp [processResponse, hcand]
  · intro resp c rest hrem hcand hparts
    have hfind : c.content.parts.find? carriesImage = none :=
      List.find?_eq_none.mpr (fun x hx => by simp [hparts x hx])
    have hex : extractImage c.content.parts = none := by
      rw [extractImage_eq_find, hfind]
      rfl
    rw [generateImage_eq, hrem]
    simp [processResponse, hcand, hex]

theorem no_image_data_normalized_witness :
    (generateImage serverA { prompt := "p" } remoteNoParts).2 =
      { success := false, error_message := some noImageMsg } :=
  (no_image_data_normalized serverA { prompt := "p" } remoteNoParts).2
    { candidates := [{ content := { parts := [] } }] } { content := { parts := [] } } []
    rfl rfl (by simp)

/-- C3: for a plain prompt with no input image, the result has exactly
one of two shapes: success with non-empty image bytes and no error
message, or failure with no image bytes and a non-empty error
message. -/
theorem generate_result_dichotomy (s : ServerState) (prompt : String)
    (remote : RemoteOracle) :
    Xor'
      ((generateImage s { prompt := prompt } remote).2.success = true ∧
        (∃ d, (generateImage s { prompt := prompt } remote).2.generated_image_data =
          some d ∧ d ≠ []) ∧
        (generateImage s { prompt := prompt } remote).2.error_message = none)
      ((generateImage s { prompt := prompt } remote).2.success = false ∧
        (generateImage s { prompt := prompt } remote).2.generated_image_data = none ∧
        ∃ m, (generateImage s { prompt := prompt } remote).2.error_message =
          some m ∧ m ≠ "") := by
  rcases generateImage_shape s { prompt := prompt } remote with h | h
  · exact Or.inl ⟨h, fun hc => absurd (h.1.symm.trans hc.1) (by simp)⟩
  · exact Or.inr ⟨h, fun hc => absurd (h.1.symm.trans hc.1) (by simp)⟩

/-- C7: response inspection looks only at the first candidate (later
candidates never influence the outcome), the extraction loop returns
the inline bytes of the first part carrying non-empty inline data
(later parts are ignored by the first-match scan), and generateImage
returns exactly those bytes. -/
theorem first_inline_part_wins :
    (∀ (model : String) (c : Candidate) (rest rest2 : List Candidate),
        processResponse model { candidates := c :: rest } =
          processResponse model { candidates := c :: rest2 }) ∧
    (∀ ps : List Part, extractImage ps = (ps.find? carriesImage).map
        (fun pt => (pt.inline_data.getD { hasData := true, data := [] }).data)) ∧
    (∀ (s : ServerState) (req : ImageGenerationRequest) (remote : RemoteOracle)
        (c : Candidate) (rest : List Candidate) (pt : Part),
        remote (getClient s).1.model_name (buildContents req) =
          .ok { candidates := c :: rest } →
        c.content.parts.find? carriesImage = some pt →
        (generateImage s req remote).2.generated_image_data =
          some ((pt.inline_data.getD { hasData := true, data := [] }).data)) := by
  refine ⟨fun model c rest rest2 => rfl, extractImage_eq_find, ?_⟩
  intro s req remote c rest pt hrem hfind
  have hex : extractImage c.content.parts =
      some ((pt.inline_data.getD { hasData := true, data := [] }).data) := by
    rw [extractImage_eq_find, hfind]
    rfl
  rw [generateImage_eq, hrem]
  simp [processResponse, hex]

theorem first_inline_part_wins_witness :
    (generateImage serverA { prompt := "p" } remoteGood).2.generated_image_data =
      some [104, 105] :=
  first_inline_part_wins.2.2 serverA { prompt := "p" } remoteGood
    goodCandidate [] goodPart rfl rfl

/-- C5: a non-empty base64 input whose decode raises makes
generateImageFromBase64 return early with a failure dictionary whose
error mentions the decode failure; the returned value is the same for
every oracle, so the remote call is never attempted. -/
theorem malformed_b64_short_circuits (s : ServerState) (prompt : String) (b64 : String)
    (mime : Option String) (e : String) (hne : b64 ≠ "")
    (hdec : pyB64Decode b64 = .error e) :
    ∀ remote : RemoteOracle,
      generateImageFromBase64 s prompt (some b64) mime remote =
        (s, { success := false, error := some (decodeErrorLead ++ e) }) := by
  intro remote
  simp [generateImageFromBase64, decodeInputImage, hne, hdec]

theorem malformed_b64_short_circuits_witness :
    generateImageFromBase64 serverA "x" (some "!!!not-base64!!!") none remoteBoom =
      (serverA, { success := false, error := some (decodeErrorLead ++ badB64Msg) }) :=
  malformed_b64_short_circuits serverA "x" "!!!not-base64!!!" none badB64Msg
    (by decide) rfl remoteBoom

/-- C4 counterexample: on a base64 decode failure the early-return
dictionary holds only the success flag and the error text, so the
model name key is absent. -/
theorem model_used_missing_counterexample :
    ((generateImageFromBase64 serverA "x" (some "!!!not-base64!!!") none
        remoteBoom).2).model_used = none := rfl

/-- C4 (amended): whenever the optional base64 input decodes (or is
absent), the returned dictionary carries the model name key for every
outcome of the generation; only the decode-failure early return omits
it. -/
theorem model_used_present_after_decode (s : ServerState) (prompt : String)
    (b64 mime : Option String) (remote : RemoteOracle) (data : Option Bytes)
    (hdec : decodeInputImage b64 = .ok data) :
    ∃ m : String,
      ((generateImageFromBase64 s prompt b64 mime remote).2).model_used = some m := by
  refine ⟨(generateImage s
    { prompt := prompt, input_image_data := data, input_image_mime_type := mime }
    remote).2.model_used, ?_⟩
  cases hgd : (generateImage s
      { prompt := prompt, input_image_data := data, input_image_mime_type := mime }
      remote).2.generated_image_data with
  | none => simp [generateImageFromBase64, hdec, hgd]
  | some d =>
      simp [generateImageFromBase64, hdec, hgd]
      split <;> rfl

theorem model_used_present_after_decode_witness :
    ∃ m : String,
      ((generateImageFromBase64 serverA "p" none none remoteBoom).2).model_used = some m :=
  model_used_present_after_decode serverA "p" none none remoteBoom none rfl

theorem sextet_b64EncChar : ∀ n, n < 64 → sextet (b64EncChar n) = some n := by decide

theorem b64EncChar_toNat_ne : ∀ n, n < 64 → (b64EncChar n).toNat ≠ 61 := by decide

theorem b64DecodeLoop_step (v : Nat) (hv : v < 64) (cs : List Char) (acc : Bytes)
    (quad : List Nat) (pads : Nat) :
    b64DecodeLoop (b64EncChar v :: cs) acc quad pads =
      if quad.length = 3 then b64DecodeLoop cs (acc ++ quadBytes (quad ++ [v])) [] 0
      else b64DecodeLoop cs acc (quad ++ [v]) 0 := by
  simp [b64DecodeLoop, b64EncChar_toNat_ne v hv, sextet_b64EncChar v hv]

theorem b64DecodeLoop_step_lt (v : Nat) (hv : v < 64) (cs : List Char) (acc : Bytes)
    (quad : List Nat) (pads : Nat) (hq : quad.length ≠ 3) :
    b64DecodeLoop (b64EncChar v :: cs) acc quad pads =
      b64DecodeLoop cs acc (quad ++ [v]) 0 := by
  rw [b64DecodeLoop_step v hv, if_neg hq]

theorem b64DecodeLoop_step_full (v : Nat) (hv : v < 64) (cs : List Char) (acc : Bytes)
    (quad : List Nat) (pads : Nat) (hq : quad.length = 3) :
    b64DecodeLoop (b64EncChar v :: cs) acc quad pads =
      b64DecodeLoop cs (acc ++ quadBytes (quad ++ [v])) [] 0 := by
  rw [b64DecodeLoop_step v hv, if_pos hq]

theorem b64DecodeLoop_pad3 (cs : List Char) (acc : Bytes) (quad : List Nat) (pads : Nat)
    (h : quad.length = 3) :
    b64DecodeLoop (Char.ofNat 61 :: cs) acc quad pads = .ok (acc ++ quadBytes quad) := by
  have hc : (Char.ofNat 61).toNat = 61 := by decide
  simp [b64DecodeLoop, hc, h]
  intro hlt
  omega

theorem b64DecodeLoop_pad2_first (cs : List Char) (acc : Bytes) (quad : List Nat)
    (h : quad.length = 2) :
    b64DecodeLoop (Char.ofNat 61 :: cs) acc quad 0 = b64DecodeLoop cs acc quad 1 := by
  have hc : (Char.ofNat 61).toNat = 61 := by decide
  simp [b64DecodeLoop, hc, h]

theorem b64DecodeLoop_pad2_second (cs : List Char) (acc : Bytes) (quad : List Nat)
    (h : quad.length = 2) :
    b64DecodeLoop (Char.ofNat 61 :: cs) acc quad 1 = .ok (acc ++ quadBytes quad) := by
  have hc : (Char.ofNat 61).toNat = 61 := by decide
  simp [b64DecodeLoop, hc, h]

theorem b64EncChar_ascii : ∀ n, n < 64 → (b64EncChar n).toNat < 128 := by decide

theorem b64Encode_ascii (d : Bytes) :
    (∀ b ∈ d, b < 256) → ∀ c ∈ b64Encode d, c.toNat < 128 := by
  induction d using b64Encode.induct with
  | case1 =>
      intro hd c hc
      simp [b64Encode] at hc
  | case2 b1 =>
      intro hd c hc
      have hb1 : b1 < 256 := hd b1 (by simp)
      simp [b64Encode] at hc
      rcases hc with rfl | rfl | rfl
      · exact b64EncChar_ascii _ (by omega)
      · exact b64EncChar_ascii _ (by omega)
      · decide
  | case3 b1 b2 =>
      intro hd c hc
      have hb1 : b1 < 256 := hd b1 (by simp)
      have hb2 : b2 < 256 := hd b2 (by simp)
      simp [b64Encode] at hc
      rcases hc with rfl | rfl | rfl | rfl
      · exact b64EncChar_ascii _ (by omega)
      · exact b64EncChar_ascii _ (by omega)
      · exact b64EncChar_ascii _ (by omega)
      · decide
  | case4 b1 b2 b3 rest ih =>
      intro hd c hc
      have hb1 : b1 < 256 := hd b1 (by simp)
      have hb2 : b2 < 256 := hd b2 (by simp)
      have hb3 : b3 < 256 := hd b3 (by simp)
      have hrest : ∀ b ∈ rest, b < 256 := fun b hb => hd b (by simp [hb])
      simp [b64Encode] at hc
      rcases hc with rfl | rfl | rfl | rfl | hmem
      · exact b64EncChar_ascii _ (by omega)
      · exact b64EncChar_ascii _ (by omega)
      · exact b64EncChar_ascii _ (by omega)
      · exact b64EncChar_ascii _ (by omega)
      · exact ih hrest c hmem

theorem b64DecodeLoop_b64Encode (d : Bytes) :
    (∀ b ∈ d, b < 256) → ∀ acc, b64DecodeLoop (b64Encode d) acc [] 0 = .ok (acc ++ d) := by
  induction d using b64Encode.induct with
  | case1 =>
      intro hd acc
      simp [b64Encode, b64DecodeLoop]
  | case2 b1 =>
      intro hd acc
      have hb1 : b1 < 256 := hd b1 (by simp)
      have h1 : b1 / 4 < 64 := by omega
      have h2 : b1 % 4 * 16 < 64 := by omega
      show b64DecodeLoop
        [b64EncChar (b1 / 4), b64EncChar (b1 % 4 * 16), Char.ofNat 61, Char.ofNat 61]
        acc [] 0 = .ok (acc ++ [b1])
      rw [b64DecodeLoop_step_lt _ h1 _ _ _ _ (by simp),
          b64DecodeLoop_step_lt _ h2 _ _ _ _ (by simp),
          b64DecodeLoop_pad2_first _ _ _ (by simp),
          b64DecodeLoop_pad2_second _ _ _ (by simp)]
      simp [quadBytes]
      all_goals omega
  | case3 b1 b2 =>
      intro hd acc
      have hb1 : b1 < 256 := hd b1 (by simp)
      have hb2 : b2 < 256 := hd b2 (by simp)
      have h1 : b1 / 4 < 64 := by omega
      have h2 : b1 % 4 * 16 + b2 / 16 < 64 := by omega
      have h3 : b2 % 16 * 4 < 64 := by omega
      show b64DecodeLoop
        [b64EncChar (b1 / 4), b64EncChar (b1 % 4 * 16 + b2 / 16),
         b64EncChar (b2 % 16 * 4), Char.ofNat 61]
        acc [] 0 = .ok (acc ++ [b1, b2])
      rw [b64DecodeLoop_step_lt _ h1 _ _ _ _ (by simp),
          b64DecodeLoop_step_lt _ h2 _ _ _ _ (by simp),
          b64DecodeLoop_step_lt _ h3 _ _ _ _ (by simp),
          b64DecodeLoop_pad3 _ _ _ _ (by simp)]
      simp [quadBytes]
      all_goals omega
  | case4 b1 b2 b3 rest ih =>
      intro hd acc
      have hb1 : b1 < 256 := hd b1 (by simp)
      have hb2 : b2 < 256 := hd b2 (by simp)
      have hb3 : b3 < 256 := hd b3 (by simp)
      have h1 : b1 / 4 < 64 := by omega
      have h2 : b1 % 4 * 16 + b2 / 16 < 64 := by omega
      have h3 : b2 % 16 * 4 + b3 / 64 < 64 := by omega
      have h4 : b3 % 64 < 64 := by omega
      show b64DecodeLoop
        (b64EncChar (b1 / 4) :: b64EncChar (b1 % 4 * 16 + b2 / 16) ::
         b64EncChar (b2 % 16 * 4 + b3 / 64) :: b64EncChar (b3 % 64) :: b64Encode rest)
        acc [] 0 = .ok (acc ++ (b1 :: b2 :: b3 :: rest))
      rw [b64DecodeLoop_step_lt _ h1 _ _ _ _ (by simp),
          b64DecodeLoop_step_lt _ h2 _ _ _ _ (by simp),
          b64DecodeLoop_step_lt _ h3 _ _ _ _ (by simp),
          b64DecodeLoop_step_full _ h4 _ _ _ _ (by simp)]
      have hrest : ∀ b ∈ rest, b < 256 := fun b hb => hd b (by simp [hb])
      rw [ih hrest]
      simp [quadBytes]
      all_goals omega

theorem pyB64Decode_b64Encode (d : Bytes) (hd : ∀ b ∈ d, b < 256) :
    pyB64Decode (String.mk (b64Encode d)) = .ok d := by
  have ht : (String.mk (b64Encode d)).toList = b64Encode d := rfl
  have hall : ((String.mk (b64Encode d)).toList.all fun c => decide (c.toNat < 128)) = true := by
    rw [ht, List.all_eq_true]
    intro c hc
    simpa using b64Encode_ascii d hd c hc
  simp only [pyB64Decode]
  rw [if_pos hall, ht]
  simpa using b64DecodeLoop_b64Encode d hd []

theorem generateImage_data_success (s : ServerState) (req : ImageGenerationRequest)
    (remote : RemoteOracle) (d : Bytes)
    (h : (generateImage s req remote).2.generated_image_data = some d) :
    (generateImage s req remote).2.success = true ∧ d ≠ [] := by
  rcases generateImage_shape s req remote with hs | hs
  · obtain ⟨h1, ⟨d2, hd2, hne⟩, _⟩ := hs
    have e : d = d2 := Option.some.inj (h.symm.trans hd2)
    subst e
    exact ⟨h1, hne⟩
  · rw [hs.2.1] at h
    exact absurd h (by simp)

/-- C6: on a successful generation, the dictionary holds the base64
encoding of the raw bytes the underlying generateImage produced and
their byte length, and decoding that base64 string returns exactly
the raw bytes. -/
theorem b64_roundtrip (s : ServerState) (prompt : String) (b64 mime : Option String)
    (remote : RemoteOracle) (data : Option Bytes) (d : Bytes)
    (hdec : decodeInputImage b64 = .ok data)
    (hgen : (generateImage s
      { prompt := prompt, input_image_data := data, input_image_mime_type := mime }
      remote).2.generated_image_data = some d)
    (hd : ∀ b ∈ d, b < 256) :
    ((generateImageFromBase64 s prompt b64 mime remote).2).generated_image_b64 =
      some (String.mk (b64Encode d)) ∧
    ((generateImageFromBase64 s prompt b64 mime remote).2).generated_image_size =
      some d.length ∧
    pyB64Decode (String.mk (b64Encode d)) = .ok d := by
  obtain ⟨hsucc, hne⟩ := generateImage_data_success s _ remote d hgen
  refine ⟨?_, ?_, pyB64Decode_b64Encode d hd⟩ <;>
    simp [generateImageFromBase64, hdec, hgen, hsucc, hne]

theorem b64_roundtrip_witness :
    ((generateImageFromBase64 serverA "p" none none remoteGood).2).generated_image_b64 =
      some (String.mk (b64Encode [104, 105])) ∧
    ((generateImageFromBase64 serverA "p" none none remoteGood).2).generated_image_size =
      some (([104, 105] : Bytes).length) ∧
    pyB64Decode (String.mk (b64Encode [104, 105])) = .ok [104, 105] :=
  b64_roundtrip serverA "p" none none remoteGood none [104, 105] rfl rfl (by decide)

end NanoBanana
